import Mathlib

/-!
# Verification of the `neural-pitch` FastAPI backend request pipeline

Shallow embedding of `src/fastapi_backend/main.py`, centred on the
`POST /predict` handler (`predict`, lines 147-235).  External
collaborators (filesystem, librosa decoding/beat tracking, the
basic-pitch transcription engine, `os.remove`) are modelled as an
environment of oracle outcomes; the handler itself is translated
statement by statement into a pure function producing the response,
the trace of external calls, and the fate of the temporary input file.
-/

namespace NeuralPitch

/-! ## Python `os.path` helpers (POSIX semantics)

`os.path.basename`, `os.path.splitext` and `os.path.join` as used at
lines 163, 215-216 and 225 of `main.py`. -/

/-- Index of the last occurrence of `c` in `cs`, or `-1` if absent —
the semantics of Python's `str.rfind`. -/
def rfind (cs : List Char) (c : Char) : Int :=
  match cs with
  | [] => -1
  | x :: xs =>
    let r := rfind xs c
    if r ≥ 0 then r + 1
    else if x = c then 0 else -1

/-- Python `posixpath.basename`: everything after the last `/`. -/
def pyBasename (p : String) : String :=
  ⟨p.data.drop ((rfind p.data '/') + 1).toNat⟩

/-- The root component of Python `os.path.splitext`, index 0 of the
returned pair: the part before the last `.` of the final path
component, except that a final component whose characters up to that
dot are all dots has no extension (so a dotfile such as `.bashrc` keeps
its name whole), following the CPython implementation in
`genericpath`. -/
def stripExt (p : String) : String :=
  let cs := p.data
  let sepIndex := rfind cs '/'
  let dotIndex := rfind cs '.'
  if sepIndex < dotIndex then
    let between := (cs.drop (sepIndex + 1).toNat).take (dotIndex - sepIndex - 1).toNat
    if between.all (fun c => c = '.') then p
    else ⟨cs.take dotIndex.toNat⟩
  else p

/-- Python `posixpath.join` applied to two components: `b` if it is
absolute, else `a ++ b` when `a` is empty or already ends in the
separator, else `a ++ "/" ++ b`.  The first and last characters are
inspected through the character list so the definition evaluates by
reduction. -/
def pyJoin (a b : String) : String :=
  if b.data.head? = some '/' then b
  else if a = "" ∨ a.data.getLast? = some '/' then a ++ b
  else a ++ "/" ++ b

/-! ## Python `round`

Line 190 of `main.py` applies the Python builtin `round` to the float
tempo estimate.  Python rounds half to even; the estimate is modelled
as a rational. -/

/-- The Python builtin `round` on a rational: nearest integer, ties to
even.  The floor is spelled out as a floored integer division of the
reduced numerator by the (positive) denominator so that the definition
evaluates inside the kernel. -/
def pyRound (q : ℚ) : ℤ :=
  let f : ℤ := q.num.fdiv q.den
  let r : ℚ := q - (f : ℚ)
  if r < 1/2 then f
  else if 1/2 < r then f + 1
  else if f % 2 = 0 then f else f + 1

/-! ## Data model -/

/-- The multipart form of `POST /predict` (lines 148-154): the uploaded
file's original name plus the four numeric parameters, with their
FastAPI defaults available as `Request.default`. -/
structure Request where
  filename : String
  onset_threshold : ℚ := 1/2
  frame_threshold : ℚ := 3/10
  min_note_length : ℚ := 58
  midi_tempo : ℤ := 0

/-- The value bound to `tempo` by `librosa.beat.beat_track` (line 182):
per the comment at line 184 it is either a bare scalar or an
array/list, whose first element is taken at line 186. -/
inductive TempoValue where
  | scalar (t : ℚ)
  | array (ts : List ℚ)
deriving DecidableEq

/-- Oracle outcomes of the external calls the handler makes, plus the
process configuration (lines 157-163).  Each fallible call either
returns or raises with a message (Python `str(e)`). -/
structure Env where
  upload_dir : String := "uploads"
  output_dir : String := "outputs"
  /-- `str(uuid.uuid4())`, line 162. -/
  file_id : String
  /-- Writing the upload to disk, lines 167-168. -/
  save_result : Except String Unit
  /-- `librosa.load` (and the imports preceding it), lines 178-181. -/
  load_result : Except String Unit
  /-- `librosa.beat.beat_track`, line 182. -/
  beat_result : Except String TempoValue
  /-- `str` of the `IndexError` raised by `tempo[0]` on an empty array. -/
  index_error_msg : String := "index 0 is out of bounds for axis 0 with size 0"
  /-- `predict_and_save`, lines 199-211. -/
  engine_result : Except String Unit
  /-- `os.path.exists(midi_path)`, line 218. -/
  output_exists : Bool
  /-- `os.remove(input_path)` in the `finally` block, line 235. -/
  remove_result : Except String Unit
  /-- `os.path.abspath`, line 227 (depends on the process cwd). -/
  abspath : String → String
  /-- Whether an incomplete file remains when saving the upload raised. -/
  leftover_on_save_error : Bool := false

/-- Trace of the handler's externally visible calls, in order. -/
inductive Event where
  | saveFile
  | decodeAudio
  | estimateTempo
  | invokeEngine (tempo : ℤ)
  | removeInput
deriving DecidableEq

/-- The response the caller receives.  `httpError` is a raised
`HTTPException(status, detail)`, rendered by FastAPI as
`{"detail": detail}`; `middlewareError` is any other exception escaping
the handler, caught by the `log_requests` middleware (lines 116-126)
and rendered as `{"error": str(e), "traceback": ...}`. -/
inductive Response where
  | fileResponse (path mediaType filename : String)
      (headers : List (String × String))
  | httpError (status : ℕ) (detail : String)
  | middlewareError (status : ℕ) (error : String)
deriving DecidableEq

/-- Outcome of one request: the response, the ordered trace of external
calls, and whether the temporary input file is still on disk. -/
structure RunResult where
  response : Response
  events : List Event
  inputFileRemains : Bool
deriving DecidableEq

/-! ## The BPM detection phase (lines 175-194) -/

/-- Lines 175-194: `detected_bpm` starts at `120`, `bpm_error` at
`None`; any exception in the `try` block is caught and stored as
`str(e)`; a successful estimate is normalised to a scalar and rounded.
Returns `(detected_bpm, bpm_error)`. -/
def bpmDetection (env : Env) : ℤ × Option String :=
  match env.load_result with
  | .error m => (120, some m)
  | .ok _ =>
    match env.beat_result with
    | .error m => (120, some m)
    | .ok (.scalar t) => (pyRound t, none)
    | .ok (.array []) => (120, some env.index_error_msg)
    | .ok (.array (t :: _)) => (pyRound t, none)

/-- External calls made by lines 178-182: `librosa.load` is always
attempted; `beat_track` runs only if loading returned. -/
def detectionEvents (env : Env) : List Event :=
  match env.load_result with
  | .error _ => [.decodeAudio]
  | .ok _ => [.decodeAudio, .estimateTempo]

/-- Line 210: `midi_tempo if midi_tempo > 0 else (detected_bpm if
detected_bpm > 0 else 120)` — the tempo actually passed to
`predict_and_save`. -/
def resolveTempo (midi_tempo detected_bpm : ℤ) : ℤ :=
  if midi_tempo > 0 then midi_tempo
  else if detected_bpm > 0 then detected_bpm else 120

/-- Line 229: `"X-Bpm-Error": bpm_error if bpm_error else ""` —
Python truthiness maps both `None` and `""` to `""`. -/
def bpmErrorHeader (bpm_error : Option String) : String :=
  match bpm_error with
  | some m => if m.isEmpty then "" else m
  | none => ""

/-! ## Path derivation (lines 163, 215-216) -/

/-- Line 163: `input_path` is `upload_dir` joined with the f-string
interpolating `file_id`, an underscore, and the uploaded filename. -/
def inputPathOf (req : Request) (env : Env) : String :=
  pyJoin env.upload_dir (env.file_id ++ "_" ++ req.filename)

/-- Lines 215-216: `midi_filename` is the extension-stripped base name
of `input_path` with `_basic_pitch.mid` appended, and `midi_path` is
`output_dir` joined with `midi_filename`. -/
def midiPathOf (req : Request) (env : Env) : String :=
  pyJoin env.output_dir
    (stripExt (pyBasename (inputPathOf req env)) ++ "_basic_pitch.mid")

/-- The spec's output-path derivation rule, stated in its own words:
"strip the extension from the input file's base name, append
`_basic_pitch.mid`, join with `output_dir`" — written independently of
the handler to compare against `midiPathOf`. -/
def outputPathSpec (output_dir input_basename : String) : String :=
  pyJoin output_dir (stripExt input_basename ++ "_basic_pitch.mid")

/-! ## The `predict` handler (lines 147-235) -/

/-- The `POST /predict` handler body, lines 155-235, as a function of
the request and the oracle environment.  The `finally` block (lines
233-235) runs on every exit of the `try` starting at line 196; an
exception raised by `os.remove` inside `finally` replaces the in-flight
outcome and escapes to the logging middleware. -/
def predict (req : Request) (env : Env) : RunResult :=
  match env.save_result with
  | .error m =>
    -- lines 170-172: HTTPException(500, str(e)) before the try/finally
    { response := .httpError 500 m
      events := [.saveFile]
      inputFileRemains := env.leftover_on_save_error }
  | .ok _ =>
    let det := bpmDetection env
    let engineTempo := resolveTempo req.midi_tempo det.1
    let evts := Event.saveFile :: detectionEvents env
      ++ [Event.invokeEngine engineTempo, Event.removeInput]
    match env.engine_result with
    | .error m =>
      match env.remove_result with
      | .error rm =>
        { response := .middlewareError 500 rm
          events := evts, inputFileRemains := true }
      | .ok _ =>
        { response := .middlewareError 500 m
          events := evts, inputFileRemains := false }
    | .ok _ =>
      let midi_path := midiPathOf req env
      if env.output_exists then
        match env.remove_result with
        | .error rm =>
          { response := .middlewareError 500 rm
            events := evts, inputFileRemains := true }
        | .ok _ =>
          { response := .fileResponse midi_path "audio/midi"
              (stripExt req.filename ++ ".mid")
              [("X-Absolute-Path", env.abspath midi_path),
               ("X-Detected-Bpm", toString det.1),
               ("X-Bpm-Error", bpmErrorHeader det.2)]
            events := evts, inputFileRemains := false }
      else
        match env.remove_result with
        | .error rm =>
          { response := .middlewareError 500 rm
            events := evts, inputFileRemains := true }
        | .ok _ =>
          { response := .httpError 500 "Output generation failed"
            events := evts, inputFileRemains := false }

/-- Estimation succeeded and, after the scalar normalisation of lines
185-188, produced the value `t`. -/
def estimationYields (env : Env) (t : ℚ) : Prop :=
  env.load_result = Except.ok () ∧
  (env.beat_result = Except.ok (TempoValue.scalar t) ∨
   ∃ rest, env.beat_result = Except.ok (TempoValue.array (t :: rest)))

/-- Value of header `k` on a success response, `none` on error
responses or when the header is absent. -/
def headerValue (r : Response) (k : String) : Option String :=
  match r with
  | .fileResponse _ _ _ hs => (hs.lookup k)
  | _ => none

/-- Recognises an invocation of the transcription engine in the trace,
whatever tempo it was passed. -/
def isEngineCall : Event → Bool
  | .invokeEngine _ => true
  | _ => false

/-! ## Concrete environments used to exercise the model -/

/-- Baseline environment: every external call succeeds, the estimator
returns the scalar `120`, the output file appears. -/
def envAllOk : Env :=
  { file_id := "id"
    save_result := Except.ok ()
    load_result := Except.ok ()
    beat_result := Except.ok (TempoValue.scalar 120)
    engine_result := Except.ok ()
    output_exists := true
    remove_result := Except.ok ()
    abspath := fun p => "/srv/app/" ++ p }

/-- Decoding raises with an empty message (Python `str` of an
exception constructed with no arguments). -/
def envLoadErrEmpty : Env :=
  { envAllOk with load_result := Except.error "" }

/-- Decoding raises with a non-empty message. -/
def envLoadErr : Env :=
  { envAllOk with load_result := Except.error "decode failed" }

/-- The estimator succeeds with the out-of-band scalar `300`. -/
def envBeat300 : Env :=
  { envAllOk with beat_result := Except.ok (TempoValue.scalar 300) }

/-- The estimator succeeds with a value that rounds to `0`. -/
def envBeatTiny : Env :=
  { envAllOk with beat_result := Except.ok (TempoValue.scalar (1/4)) }

/-- The transcription engine raises. -/
def envEngineErr : Env :=
  { envAllOk with engine_result := Except.error "corrupt audio stream" }

/-- Deleting the temporary input raises. -/
def envRemoveErr : Env :=
  { envAllOk with remove_result := Except.error "Permission denied" }

/-! ## Structural lemmas about `predict` -/

/-- Once the upload is stored, the trace is the save, the detection
calls, one engine invocation at the resolved tempo, and one removal
attempt, in that order — on every branch of the transcription phase. -/
theorem predict_events_of_save_ok (req : Request) (env : Env)
    (h : env.save_result = Except.ok ()) :
    (predict req env).events
      = Event.saveFile :: detectionEvents env
          ++ [Event.invokeEngine
                (resolveTempo req.midi_tempo (bpmDetection env).1),
              Event.removeInput] := by
  unfold predict
  rw [h]
  rcases env.engine_result with m | u
  · rcases env.remove_result with rm | u <;> rfl
  · rcases hout : env.output_exists with _ | _ <;>
      simp only [hout, Bool.false_eq_true, if_true, if_false] <;>
      rcases env.remove_result with rm | u <;> rfl

/-- Once the upload is stored and the removal call returns, the input
file is gone, whatever the transcription phase did. -/
theorem predict_not_remains (req : Request) (env : Env)
    (h : env.save_result = Except.ok ())
    (hrm : env.remove_result = Except.ok ()) :
    (predict req env).inputFileRemains = false := by
  unfold predict
  rw [h]
  rcases env.engine_result with m | u
  · rw [hrm]
  · rcases hout : env.output_exists with _ | _ <;>
      simp only [hout, Bool.false_eq_true, if_true, if_false] <;>
      rw [hrm]

/-! ## Claims -/

/-- C1 (counterexample): with `midi_tempo = 0` and decoding raising an
exception whose Python description is the empty string, the request
still succeeds and the `X-Bpm-Error` header is present but empty —
refuting the claim that the header is non-empty whenever decoding or
estimation raised. -/
theorem C1_header_can_be_empty :
    bpmDetection envLoadErrEmpty = (120, some "")
    ∧ headerValue
        (predict { filename := "clip.mp3", midi_tempo := 0 } envLoadErrEmpty).response
        "X-Bpm-Error" = some "" := by
  constructor
  · rfl
  · rfl

/-- C1 (amended): for every request with `midi_tempo ≤ 0` in which
decoding or estimation raises with description `m`, the failure is
absorbed: detection yields `(120, some m)`, the engine is invoked with
tempo exactly `120`, and the `X-Bpm-Error` header carries `m` itself —
hence is non-empty whenever `m` is non-empty. -/
theorem C1_fallback_tempo_120 (req : Request) (env : Env) (m : String)
    (htempo : req.midi_tempo ≤ 0)
    (hsave : env.save_result = Except.ok ())
    (hexn : env.load_result = Except.error m ∨
      (env.load_result = Except.ok () ∧ env.beat_result = Except.error m)) :
    bpmDetection env = (120, some m)
    ∧ Event.invokeEngine 120 ∈ (predict req env).events
    ∧ (m ≠ "" → bpmErrorHeader (bpmDetection env).2 = m) := by
  have hdet : bpmDetection env = (120, some m) := by
    rcases hexn with h | ⟨h1, h2⟩
    · unfold bpmDetection; rw [h]
    · unfold bpmDetection; rw [h1, h2]
  refine ⟨hdet, ?_, ?_⟩
  · rw [predict_events_of_save_ok req env hsave, hdet]
    have hres : resolveTempo req.midi_tempo (120 : ℤ) = 120 := by
      unfold resolveTempo
      rw [if_neg (by omega), if_pos (by omega)]
    rw [hres]
    simp
  · intro hm
    rw [hdet]
    unfold bpmErrorHeader
    simp [String.isEmpty_iff, hm]

/-- C1 witness: concrete instance of `C1_fallback_tempo_120` with a
non-empty error description. -/
theorem C1_fallback_tempo_120_inst :
    bpmDetection envLoadErr = (120, some "decode failed")
    ∧ Event.invokeEngine 120
        ∈ (predict { filename := "clip.mp3", midi_tempo := 0 } envLoadErr).events
    ∧ ("decode failed" ≠ "" →
        bpmErrorHeader (bpmDetection envLoadErr).2 = "decode failed") :=
  C1_fallback_tempo_120 { filename := "clip.mp3", midi_tempo := 0 }
    envLoadErr "decode failed" (by decide) rfl (Or.inl rfl)

/-- C2: once the upload is stored, the `finally` block deletes the
temporary input on every exit path of the transcription phase — normal
return, engine exception, or the missing-output error: the removal is
attempted exactly once, as the last external action, and (the deletion
call returning) the input file is absent afterwards. -/
theorem C2_input_always_deleted (req : Request) (env : Env)
    (hsave : env.save_result = Except.ok ())
    (hrm : env.remove_result = Except.ok ()) :
    (predict req env).inputFileRemains = false
    ∧ (predict req env).events.count Event.removeInput = 1
    ∧ (predict req env).events.getLast? = some Event.removeInput := by
  refine ⟨predict_not_remains req env hsave hrm, ?_, ?_⟩
  · rw [predict_events_of_save_ok req env hsave]
    unfold detectionEvents
    rcases env.load_result with m | u <;> simp [List.count_cons]
  · rw [predict_events_of_save_ok req env hsave]
    unfold detectionEvents
    rcases env.load_result with m | u <;> rfl

/-- C2 witness: concrete run through each phase outcome of
`C2_input_always_deleted` at the engine-failure environment. -/
theorem C2_input_always_deleted_inst :
    (predict { filename := "song.wav" } envEngineErr).inputFileRemains = false
    ∧ (predict { filename := "song.wav" } envEngineErr).events.count
        Event.removeInput = 1
    ∧ (predict { filename := "song.wav" } envEngineErr).events.getLast?
        = some Event.removeInput :=
  C2_input_always_deleted { filename := "song.wav" } envEngineErr rfl rfl

/-- C3 (counterexample): with `midi_tempo = 0` and the estimator
succeeding with `300`, the code applies no plausibility band: the
resolved tempo is `300` (not `120`) and `tempo_error` stays absent —
refuting the claimed range check against `[40, 250]`. -/
theorem C3_no_range_check :
    bpmDetection envBeat300 = (300, none)
    ∧ resolveTempo 0 (bpmDetection envBeat300).1 = 300
    ∧ Event.invokeEngine 300
        ∈ (predict { filename := "song.wav", midi_tempo := 0 } envBeat300).events := by
  have hdet : bpmDetection envBeat300 = (300, none) := by
    simp [bpmDetection, envBeat300, envAllOk]
    norm_num [pyRound, Int.fdiv]
  refine ⟨hdet, by rw [hdet]; decide, ?_⟩
  rw [predict_events_of_save_ok _ _ rfl, hdet]
  simp [detectionEvents, envBeat300, envAllOk, resolveTempo]

/-- C3 (amended): for every request with `midi_tempo ≤ 0` in which
estimation succeeds with value `t`, no range check is applied:
`tempo_error` is absent, and the resolved tempo is the rounded estimate
whenever that integer is positive (whatever its magnitude), and `120`
otherwise. -/
theorem C3_rounded_estimate_used (env : Env) (tempo : ℤ) (t : ℚ)
    (htempo : tempo ≤ 0) (hest : estimationYields env t) :
    (bpmDetection env).2 = none
    ∧ resolveTempo tempo (bpmDetection env).1
        = if 0 < pyRound t then pyRound t else 120 := by
  obtain ⟨hload, hbeat⟩ := hest
  have hdet : bpmDetection env = (pyRound t, none) := by
    rcases hbeat with h | ⟨rest, h⟩ <;> (unfold bpmDetection; rw [hload, h])
  rw [hdet]
  refine ⟨rfl, ?_⟩
  unfold resolveTempo
  rw [if_neg (by omega)]

/-- C3 witness: concrete instance of `C3_rounded_estimate_used` with
the out-of-band estimate `300`. -/
theorem C3_rounded_estimate_used_inst :
    (bpmDetection envBeat300).2 = none
    ∧ resolveTempo 0 (bpmDetection envBeat300).1
        = if 0 < pyRound 300 then pyRound 300 else 120 :=
  C3_rounded_estimate_used envBeat300 0 300 (by decide) ⟨rfl, Or.inl rfl⟩

/-- C4 (counterexample): with an explicit `midi_tempo = 100` and every
external call succeeding, the trace still contains the audio decode and
the estimator invocation — refuting the claim that no estimation is
attempted when `midi_tempo > 0`. -/
theorem C4_estimation_always_attempted :
    Event.decodeAudio
      ∈ (predict { filename := "song.wav", midi_tempo := 100 } envAllOk).events
    ∧ Event.estimateTempo
      ∈ (predict { filename := "song.wav", midi_tempo := 100 } envAllOk).events := by
  constructor <;> (rw [predict_events_of_save_ok _ _ rfl]; decide)

/-- C4 (amended): for every request with `midi_tempo > 0`, the audio is
still decoded for beat tracking, but the estimation result is ignored:
the engine is invoked with exactly the caller-supplied tempo. -/
theorem C4_explicit_tempo_ignores_estimate (req : Request) (env : Env)
    (htempo : 0 < req.midi_tempo)
    (hsave : env.save_result = Except.ok ()) :
    Event.decodeAudio ∈ (predict req env).events
    ∧ Event.invokeEngine req.midi_tempo ∈ (predict req env).events := by
  rw [predict_events_of_save_ok req env hsave]
  have hres : resolveTempo req.midi_tempo (bpmDetection env).1
      = req.midi_tempo := by
    unfold resolveTempo
    rw [if_pos htempo]
  rw [hres]
  constructor
  · unfold detectionEvents
    rcases env.load_result with m | u <;> simp
  · simp

/-- C4 witness: concrete instance of
`C4_explicit_tempo_ignores_estimate` at `midi_tempo = 100`. -/
theorem C4_explicit_tempo_ignores_estimate_inst :
    Event.decodeAudio
      ∈ (predict { filename := "a.wav", midi_tempo := 100 } envAllOk).events
    ∧ Event.invokeEngine (100 : ℤ)
      ∈ (predict { filename := "a.wav", midi_tempo := 100 } envAllOk).events :=
  C4_explicit_tempo_ignores_estimate { filename := "a.wav", midi_tempo := 100 }
    envAllOk (by decide) rfl

/-- C5: the derived output path is exactly `output_dir` joined with the
extension-stripped base name of the input path followed by
`_basic_pitch.mid`, for every input — and concretely for names with
spaces, multiple dots, and non-ASCII characters. -/
theorem C5_output_path_derivation :
    (∀ (req : Request) (env : Env),
      midiPathOf req env
        = outputPathSpec env.output_dir (pyBasename (inputPathOf req env)))
    ∧ outputPathSpec "outputs" "id_my song.v2.tar.gz"
        = "outputs/id_my song.v2.tar_basic_pitch.mid"
    ∧ outputPathSpec "outputs" "id_café.mp3"
        = "outputs/id_café_basic_pitch.mid" := by
  refine ⟨fun req env => rfl, ?_, ?_⟩ <;> decide

/-- C6 (counterexample): a successful response after a failed
estimation with an explicit `midi_tempo = 300` has no
`X-Generated-Filename` header at all, and its `X-Detected-Bpm` header
reads `120` (the detection fallback) although the tempo passed to the
engine — the resolved tempo — is `300`. -/
theorem C6_headers_diverge_from_claim :
    headerValue
        (predict { filename := "song.wav", midi_tempo := 300 } envLoadErr).response
        "X-Generated-Filename" = none
    ∧ headerValue
        (predict { filename := "song.wav", midi_tempo := 300 } envLoadErr).response
        "X-Detected-Bpm" = some "120"
    ∧ resolveTempo 300 (bpmDetection envLoadErr).1 = 300 := by
  refine ⟨rfl, rfl, rfl⟩

/-- C6 (amended): every successful response carries the MIDI file with
media type `audio/midi`, a download filename equal to the original
uploaded name with its extension replaced by `.mid`, and exactly the
headers `X-Absolute-Path`, `X-Detected-Bpm` (the string of the
detection-phase BPM, not necessarily the resolved tempo) and
`X-Bpm-Error` (always present; empty when estimation succeeded);
there is no `X-Generated-Filename` header. -/
theorem C6_success_response (req : Request) (env : Env)
    (hsave : env.save_result = Except.ok ())
    (heng : env.engine_result = Except.ok ())
    (hout : env.output_exists = true)
    (hrm : env.remove_result = Except.ok ()) :
    (predict req env).response
      = Response.fileResponse (midiPathOf req env) "audio/midi"
          (stripExt req.filename ++ ".mid")
          [("X-Absolute-Path", env.abspath (midiPathOf req env)),
           ("X-Detected-Bpm", toString (bpmDetection env).1),
           ("X-Bpm-Error", bpmErrorHeader (bpmDetection env).2)] := by
  unfold predict
  rw [hsave, heng, hout, hrm]
  rfl

/-- C6 witness: concrete instance of `C6_success_response` for an
upload named `song.wav`. -/
theorem C6_success_response_inst :
    (predict { filename := "song.wav" } envAllOk).response
      = Response.fileResponse
          (midiPathOf { filename := "song.wav" } envAllOk) "audio/midi"
          (stripExt "song.wav" ++ ".mid")
          [("X-Absolute-Path",
             envAllOk.abspath (midiPathOf { filename := "song.wav" } envAllOk)),
           ("X-Detected-Bpm", toString (bpmDetection envAllOk).1),
           ("X-Bpm-Error", bpmErrorHeader (bpmDetection envAllOk).2)] :=
  C6_success_response { filename := "song.wav" } envAllOk rfl rfl rfl rfl

/-- C7: when the transcription engine raises with message `m`, the
caller receives a 500 whose JSON body carries `m` (through the logging
middleware), the engine was invoked exactly once, and the temporary
input file was removed — the removal being the last external action
before the error response is produced. -/
theorem C7_engine_error_propagates (req : Request) (env : Env) (m : String)
    (hsave : env.save_result = Except.ok ())
    (heng : env.engine_result = Except.error m)
    (hrm : env.remove_result = Except.ok ()) :
    (predict req env).response = Response.middlewareError 500 m
    ∧ (predict req env).events.countP isEngineCall = 1
    ∧ (predict req env).inputFileRemains = false
    ∧ (predict req env).events.getLast? = some Event.removeInput := by
  refine ⟨?_, ?_, predict_not_remains req env hsave hrm, ?_⟩
  · unfold predict
    rw [hsave, heng, hrm]
  · rw [predict_events_of_save_ok req env hsave]
    unfold detectionEvents
    rcases env.load_result with m2 | u <;> simp [List.countP_cons, isEngineCall]
  · rw [predict_events_of_save_ok req env hsave]
    unfold detectionEvents
    rcases env.load_result with m2 | u <;> rfl

/-- C7 witness: concrete instance of `C7_engine_error_propagates` at
the engine-failure environment. -/
theorem C7_engine_error_propagates_inst :
    (predict { filename := "song.wav" } envEngineErr).response
        = Response.middlewareError 500 "corrupt audio stream"
    ∧ (predict { filename := "song.wav" } envEngineErr).events.countP
        isEngineCall = 1
    ∧ (predict { filename := "song.wav" } envEngineErr).inputFileRemains = false
    ∧ (predict { filename := "song.wav" } envEngineErr).events.getLast?
        = some Event.removeInput :=
  C7_engine_error_propagates { filename := "song.wav" } envEngineErr
    "corrupt audio stream" rfl rfl rfl

/-- C8 (counterexample): the `finally` block has no handler around
`os.remove`; when deletion raises, the exception escapes, so an
otherwise successful request turns into a 500 carrying the deletion
error — the cleanup failure does change the response the caller
receives, and the input file is still on disk. -/
theorem C8_cleanup_failure_escalates :
    (predict { filename := "song.wav" } envRemoveErr).response
        = Response.middlewareError 500 "Permission denied"
    ∧ (predict { filename := "song.wav" } envRemoveErr).inputFileRemains = true
    ∧ (predict { filename := "song.wav" } envAllOk).response
        ≠ (predict { filename := "song.wav" } envRemoveErr).response := by
  refine ⟨rfl, rfl, fun h => Response.noConfusion h⟩

/-- C8 (amended): once the upload is stored, a failing deletion of the
temporary input replaces whatever the transcription phase produced: the
caller receives a 500 carrying the deletion error and the input file
remains on disk. -/
theorem C8_remove_error_masks_outcome (req : Request) (env : Env) (rm : String)
    (hsave : env.save_result = Except.ok ())
    (hrm : env.remove_result = Except.error rm) :
    (predict req env).response = Response.middlewareError 500 rm
    ∧ (predict req env).inputFileRemains = true := by
  unfold predict
  rw [hsave, hrm]
  rcases env.engine_result with m | u
  · exact ⟨rfl, rfl⟩
  · rcases hout : env.output_exists with _ | _ <;> exact ⟨rfl, rfl⟩

/-- C8 witness: concrete instance of `C8_remove_error_masks_outcome`
for a deletion failing with a permission error. -/
theorem C8_remove_error_masks_outcome_inst :
    (predict { filename := "b.wav" } envRemoveErr).response
        = Response.middlewareError 500 "Permission denied"
    ∧ (predict { filename := "b.wav" } envRemoveErr).inputFileRemains = true :=
  C8_remove_error_masks_outcome { filename := "b.wav" } envRemoveErr
    "Permission denied" rfl rfl

/-- C9: an explicit positive `midi_tempo` is passed to the engine
unchanged — no plausibility band is applied — whatever the detection
phase produced. -/
theorem C9_explicit_tempo_unchanged (req : Request) (env : Env)
    (htempo : 0 < req.midi_tempo)
    (hsave : env.save_result = Except.ok ()) :
    resolveTempo req.midi_tempo (bpmDetection env).1 = req.midi_tempo
    ∧ Event.invokeEngine req.midi_tempo ∈ (predict req env).events := by
  have hres : resolveTempo req.midi_tempo (bpmDetection env).1
      = req.midi_tempo := by
    unfold resolveTempo
    rw [if_pos htempo]
  refine ⟨hres, ?_⟩
  rw [predict_events_of_save_ok req env hsave, hres]
  simp

/-- C9 witness: the implausible explicit value `300` is used
unchanged. -/
theorem C9_explicit_tempo_unchanged_inst :
    resolveTempo
        (Request.midi_tempo { filename := "song.wav", midi_tempo := 300 })
        (bpmDetection envAllOk).1
      = Request.midi_tempo { filename := "song.wav", midi_tempo := 300 }
    ∧ Event.invokeEngine
        (Request.midi_tempo { filename := "song.wav", midi_tempo := 300 })
      ∈ (predict { filename := "song.wav", midi_tempo := 300 } envAllOk).events :=
  C9_explicit_tempo_unchanged { filename := "song.wav", midi_tempo := 300 }
    envAllOk (by decide) rfl

/-- C10: with `midi_tempo ≤ 0` and an estimate that rounds to a
non-positive integer, the engine receives `120` while `tempo_error`
stays unset, so the `X-Bpm-Error` header is empty even though the
estimate was discarded; and the tempo passed to the engine is a
strictly positive integer on every input. -/
theorem C10_silent_fallback_positive_tempo (env : Env) (tempo : ℤ) (t : ℚ)
    (htempo : tempo ≤ 0)
    (hest : estimationYields env t)
    (hr : pyRound t ≤ 0) :
    resolveTempo tempo (bpmDetection env).1 = 120
    ∧ (bpmDetection env).2 = none
    ∧ bpmErrorHeader (bpmDetection env).2 = ""
    ∧ ∀ (tempo2 detected : ℤ), 0 < resolveTempo tempo2 detected := by
  obtain ⟨hload, hbeat⟩ := hest
  have hdet : bpmDetection env = (pyRound t, none) := by
    rcases hbeat with h | ⟨rest, h⟩ <;> (unfold bpmDetection; rw [hload, h])
  rw [hdet]
  refine ⟨?_, rfl, rfl, ?_⟩
  · unfold resolveTempo
    rw [if_neg (by omega), if_neg (by omega)]
  · intro tempo2 detected
    unfold resolveTempo
    split
    · omega
    · split
      · omega
      · omega

/-- C10 witness: concrete instance of
`C10_silent_fallback_positive_tempo` with the estimate one quarter,
which rounds to zero. -/
theorem C10_silent_fallback_positive_tempo_inst :
    resolveTempo 0 (bpmDetection envBeatTiny).1 = 120
    ∧ (bpmDetection envBeatTiny).2 = none
    ∧ bpmErrorHeader (bpmDetection envBeatTiny).2 = ""
    ∧ ∀ (tempo2 detected : ℤ), 0 < resolveTempo tempo2 detected :=
  C10_silent_fallback_positive_tempo envBeatTiny 0 (1/4) (by decide)
    ⟨rfl, Or.inl rfl⟩ (by norm_num [pyRound, Int.fdiv])

end NeuralPitch
